import Mathlib

/-!
Verification of the express-ts-setup repository: a shallow embedding of its
request-handling surface (the `asyncHandler` adapter, the `ApiError` and
`ApiResponse` value classes, the user controllers and the user router), with
theorems settling the behavioural claims of the specification.
-/

namespace ExpressTs

/-- JSON-like payload values sent through `res.send`. -/
inductive Json where
  | num (n : Int)
  | str (s : String)
  | arr (elems : List Json)
  | obj (fields : List (String × Json))

/-- Outcome of invoking a wrapped request handler, from the caller's point of
view under JavaScript call semantics: the call may throw synchronously before
producing a deferred result (`thrown`), or return a promise that later
resolves (`resolved`) or rejects with a failure value (`rejected`). -/
inductive Outcome (E : Type) where
  | thrown (e : E)
  | resolved
  | rejected (e : E)

/-- Observable record of one invocation of the handler returned by
`asyncHandler` (src/utils/asyncHandler.ts lines 10-16):
`handlerCalls` lists the invocations of the wrapped handler together with the
arguments it received; `adapterNextCalls` lists the calls to the error
continuation made by the adapter's own code (its `.catch` branch), not those
the wrapped handler may make itself; `adapterResWrites` counts response
writes performed by the adapter's own code; `escaped` is the exception, if
any, propagating out of the adapted handler uncaught. -/
structure AdaptedRun (Req Res Next E : Type) where
  handlerCalls : List (Req × Res × Next)
  adapterNextCalls : List E
  adapterResWrites : Nat
  escaped : Option E

/-- Embedding of `asyncHandler` (src/utils/asyncHandler.ts lines 10-16):
`(req, res, next) => { Promise.resolve(requestHandler(req, res, next)).catch((err) => next(err)); }`.
The wrapped handler is called exactly once with the received arguments. If
that call throws synchronously, evaluation of `Promise.resolve(...)` aborts:
the `.catch` handler is never attached, `next` is not called, and the throw
escapes. If the returned promise resolves, the `.catch` branch never runs.
If it rejects with `e`, the `.catch` branch runs once, calling `next e`.
The adapter's own code contains no response operation. -/
def asyncHandler {Req Res Next E : Type}
    (requestHandler : Req → Res → Next → Outcome E) :
    Req → Res → Next → AdaptedRun Req Res Next E :=
  fun req res next =>
    match requestHandler req res next with
    | Outcome.thrown e => ⟨[(req, res, next)], [], 0, some e⟩
    | Outcome.resolved => ⟨[(req, res, next)], [], 0, none⟩
    | Outcome.rejected e => ⟨[(req, res, next)], [e], 0, none⟩

/-- The `ApiResponse` value class (src/utils/apiResponse.ts). -/
structure ApiResponse (T : Type) where
  statusCode : Int
  data : T
  message : String
  success : Bool

/-- Embedding of the `ApiResponse<T>` constructor: it stores its arguments and
sets `success = statusCode < 400`. The source gives `message` the default
value "Success"; a call using the default is a call passing "Success". -/
def ApiResponse.make {T : Type} (statusCode : Int) (data : T) (message : String) :
    ApiResponse T :=
  ⟨statusCode, data, message, decide (statusCode < 400)⟩

/-- The `ApiError` value class (src/utils/apiError.ts). The `stack` field is
`none` when the source falls back to `Error.captureStackTrace`, whose
engine-generated text lies outside the model. -/
structure ApiError where
  statusCode : Int
  message : String
  success : Bool
  stack : Option String

/-- Embedding of the `ApiError` constructor (src/utils/apiError.ts lines
5-19): it stores `statusCode` and `message`, leaves the `success` field at
its initializer `false`, and keeps the `stack` argument when it is truthy
(a non-empty string), otherwise captures an engine stack trace. All three
fields are declared `readonly`, and no method of the class mutates them.
The source gives `message` the default "Something went wrong" and `stack`
the default ""; a call using a default is a call passing that value. -/
def ApiError.make (statusCode : Int) (message : String) (stack : String) : ApiError :=
  ⟨statusCode, message, false, if stack = "" then none else some stack⟩

/-- An inbound request as the controllers see it: route parameters, parsed
body and query. -/
structure Req where
  params : List (String × String)
  body : List (String × Json)
  query : List (String × String)

/-- The mutable state of an Express response object that the controllers
touch: the status code (Express default 200) and the body sent, if any. -/
structure Res where
  statusCode : Nat
  sent : Option Json

/-- A fresh response object: status 200, nothing sent. -/
def Res.init : Res := ⟨200, none⟩

/-- `res.status(code)`: sets the status code and returns the response. -/
def Res.status (r : Res) (code : Nat) : Res := ⟨code, r.sent⟩

/-- `res.send(payload)`: sends `payload` with the current status code. -/
def Res.send (r : Res) (payload : Json) : Res := ⟨r.statusCode, some payload⟩

/-- `getUsers` (user.controller.ts): `async (req, res) => { res.send([]); }`.
An `async` body with no `throw` and no rejected `await` always resolves,
so the controller is a total function on the response state. -/
def getUsers (_req : Req) (res : Res) : Except ApiError Res :=
  Except.ok (res.send (Json.arr []))

/-- `getUserById` (user.controller.ts): `async (req, res) => res.send({})`.
The request, including its `id` parameter, is never read. -/
def getUserById (_req : Req) (res : Res) : Except ApiError Res :=
  Except.ok (res.send (Json.obj []))

/-- `createUser` (user.controller.ts): responds with status 201 and the fixed
record `{id: 1, username: "anson", email: "anson@ansonthedev.com"}`; the
request body and query are never read. -/
def createUser (_req : Req) (res : Res) : Except ApiError Res :=
  Except.ok ((res.status 201).send (Json.obj
    [("id", Json.num 1),
     ("username", Json.str "anson"),
     ("email", Json.str "anson@ansonthedev.com")]))

/-- `loginUser` (user.controller.ts): `async (req, res, next) => {}` — an
empty body that resolves without touching the response. -/
def loginUser (_req : Req) (res : Res) : Except ApiError Res :=
  Except.ok res

/-- HTTP methods used by the router. -/
inductive Method where
  | GET
  | POST

/-- The user router (user.route.ts): `get "/" getUsers`, `get "/:id"
getUserById`, `post "/" createUser`. Paths are modelled as the list of
segments after the mount point; `"/:id"` matches exactly one segment and
binds it as the `id` route parameter for the dispatched handler. `loginUser`
is not registered. -/
def router (m : Method) (segs : List String) : Option (Req → Res → Except ApiError Res) :=
  match m, segs with
  | Method.GET, [] => some getUsers
  | Method.GET, [idVal] =>
      some (fun req res => getUserById ⟨[("id", idVal)], req.body, req.query⟩ res)
  | Method.POST, [] => some createUser
  | _, _ => none

/-- The application's route table (app.ts): the user router is mounted at
`/api/v1/users`; all other paths fall through to the framework default. -/
def app (m : Method) (segs : List String) : Option (Req → Res → Except ApiError Res) :=
  match segs with
  | "api" :: "v1" :: "users" :: rest => router m rest
  | _ => none

/-- Dispatch one request: match the route table and run the matched handler
on a fresh response object; `none` when no route matches. -/
def dispatch (m : Method) (segs : List String) (req : Req) :
    Option (Except ApiError Res) :=
  (app m segs).map (fun h => h req Res.init)

/-- A concrete wrapped handler whose deferred result rejects with 5. -/
def rejectingHandler : Unit → Unit → Unit → Outcome Nat :=
  fun _ _ _ => Outcome.rejected 5

/-- A concrete wrapped handler whose deferred result resolves. -/
def resolvingHandler : Unit → Unit → Unit → Outcome Nat :=
  fun _ _ _ => Outcome.resolved

/-- A concrete wrapped handler that throws 7 synchronously, before ever
producing a deferred result. -/
def throwingHandler : Unit → Unit → Unit → Outcome Nat :=
  fun _ _ _ => Outcome.thrown 7

/-- A request with empty params, body and query, for concrete instances. -/
def emptyReq : Req := ⟨[], [], []⟩

/-- Claim C1: when the wrapped handler's deferred result rejects with `e`,
the handler returned by `asyncHandler` invokes the error continuation
exactly once with exactly `e`, and itself performs no response writes. -/
theorem asyncHandler_rejection_next_once {Req Res Next E : Type}
    (requestHandler : Req → Res → Next → Outcome E)
    (req : Req) (res : Res) (next : Next) (e : E)
    (h : requestHandler req res next = Outcome.rejected e) :
    (asyncHandler requestHandler req res next).adapterNextCalls = [e] ∧
    (asyncHandler requestHandler req res next).adapterResWrites = 0 := by
  simp [asyncHandler, h]

/-- Witness for C1 at a concrete rejecting handler. -/
theorem asyncHandler_rejection_next_once_witness :
    rejectingHandler () () () = Outcome.rejected 5 ∧
    ((asyncHandler rejectingHandler () () ()).adapterNextCalls = [5] ∧
     (asyncHandler rejectingHandler () () ()).adapterResWrites = 0) :=
  ⟨rfl, asyncHandler_rejection_next_once rejectingHandler () () () 5 rfl⟩

/-- Claim C2: when the wrapped handler's deferred result resolves, the
handler returned by `asyncHandler` never calls the error continuation. -/
theorem asyncHandler_resolved_no_next {Req Res Next E : Type}
    (requestHandler : Req → Res → Next → Outcome E)
    (req : Req) (res : Res) (next : Next)
    (h : requestHandler req res next = Outcome.resolved) :
    (asyncHandler requestHandler req res next).adapterNextCalls = [] := by
  simp only [asyncHandler, h]

/-- Witness for C2 at a concrete resolving handler. -/
theorem asyncHandler_resolved_no_next_witness :
    resolvingHandler () () () = Outcome.resolved ∧
    (asyncHandler resolvingHandler () () ()).adapterNextCalls = [] :=
  ⟨rfl, asyncHandler_resolved_no_next resolvingHandler () () () rfl⟩

/-- Counterexample to claim C3: a wrapped handler that throws 7 synchronously
is not caught by the adapter — the error continuation is never called and
the failure escapes the adapted handler unhandled. In the source,
`Promise.resolve(requestHandler(req, res, next))` evaluates the call first;
a synchronous throw aborts that evaluation before `.catch` is attached. -/
theorem asyncHandler_sync_throw_escapes :
    (asyncHandler throwingHandler () () ()).adapterNextCalls = [] ∧
    (asyncHandler throwingHandler () () ()).escaped = some 7 :=
  ⟨rfl, rfl⟩

/-- Claim C3 as amended: every failure surfaced as a rejected deferred
result — which includes any throw inside a handler written as an `async`
function, since such throws become rejections — is caught by the handler
returned by `asyncHandler`, routed to the error continuation, and never
escapes; only a synchronous throw occurring before a deferred result is
produced escapes uncaught. -/
theorem asyncHandler_rejection_caught_never_escapes {Req Res Next E : Type}
    (requestHandler : Req → Res → Next → Outcome E)
    (req : Req) (res : Res) (next : Next) (e : E)
    (h : requestHandler req res next = Outcome.rejected e) :
    (asyncHandler requestHandler req res next).adapterNextCalls = [e] ∧
    (asyncHandler requestHandler req res next).escaped = none := by
  simp [asyncHandler, h]

/-- Witness for the amended C3 at a concrete rejecting handler. -/
theorem asyncHandler_rejection_caught_never_escapes_witness :
    rejectingHandler () () () = Outcome.rejected 5 ∧
    ((asyncHandler rejectingHandler () () ()).adapterNextCalls = [5] ∧
     (asyncHandler rejectingHandler () () ()).escaped = none) :=
  ⟨rfl, asyncHandler_rejection_caught_never_escapes rejectingHandler () () () 5 rfl⟩

/-- Claim C4: for every statusCode, data and message, the constructed
`ApiResponse` has `success = (statusCode < 400)`. -/
theorem apiResponse_success_eq_statusCode_lt_400 (T : Type)
    (statusCode : Int) (data : T) (message : String) :
    (ApiResponse.make statusCode data message).success = decide (statusCode < 400) :=
  rfl

/-- Witness for C4 at the claim's particular status codes: 201 gives
`success = true` and 404 gives `success = false`. -/
theorem apiResponse_success_eq_statusCode_lt_400_witness :
    (ApiResponse.make 201 (Json.obj []) "Success").success = true ∧
    (ApiResponse.make 404 (Json.obj []) "Success").success = false := by
  constructor
  · rw [apiResponse_success_eq_statusCode_lt_400]
    decide
  · rw [apiResponse_success_eq_statusCode_lt_400]
    decide

/-- Claim C5: for every combination of constructor arguments, the constructed
`ApiError` has `success = false`; the field is `readonly` and the embedded
value is immutable, so no later operation changes it. -/
theorem apiError_success_always_false (statusCode : Int) (message stack : String) :
    (ApiError.make statusCode message stack).success = false :=
  rfl

/-- Claim C6: every request dispatched to POST /api/v1/users/ gets status 201
and exactly the fixed record, regardless of request body or query. -/
theorem createUser_route_fixed_record (req : Req) :
    dispatch Method.POST ["api", "v1", "users"] req =
      some (Except.ok ⟨201, some (Json.obj
        [("id", Json.num 1),
         ("username", Json.str "anson"),
         ("email", Json.str "anson@ansonthedev.com")])⟩) :=
  rfl

/-- Claim C7: every request dispatched to GET /api/v1/users/ gets status 200
with an empty list as the payload. -/
theorem getUsers_route_empty_list (req : Req) :
    dispatch Method.GET ["api", "v1", "users"] req =
      some (Except.ok ⟨200, some (Json.arr [])⟩) :=
  rfl

/-- Claim C8: every request dispatched to GET /api/v1/users/:id gets status
200 with an empty object, for every identifier value; the response is the
same for any two identifier values. -/
theorem getUserById_route_empty_object_ignores_id :
    (∀ (idVal : String) (req : Req),
      dispatch Method.GET ["api", "v1", "users", idVal] req =
        some (Except.ok ⟨200, some (Json.obj [])⟩)) ∧
    (∀ (idOne idTwo : String) (req : Req),
      dispatch Method.GET ["api", "v1", "users", idOne] req =
        dispatch Method.GET ["api", "v1", "users", idTwo] req) :=
  ⟨fun _ _ => rfl, fun _ _ _ => rfl⟩

/-- Claim C9: the `loginUser` handler writes no response: for every request
and every response state, its deferred result resolves and the response
state is returned unchanged. -/
theorem loginUser_no_response_write_resolves (req : Req) (res : Res) :
    loginUser req res = Except.ok res :=
  rfl

/-- Claim C10: every invocation of the handler returned by `asyncHandler`
invokes the wrapped handler exactly once, with the very same request,
response and continuation arguments the adapted handler received. -/
theorem asyncHandler_calls_wrapped_once_unchanged {Req Res Next E : Type}
    (requestHandler : Req → Res → Next → Outcome E)
    (req : Req) (res : Res) (next : Next) :
    (asyncHandler requestHandler req res next).handlerCalls = [(req, res, next)] := by
  unfold asyncHandler
  cases requestHandler req res next <;> rfl

end ExpressTs
